import Mathlib

/-!
Shallow embedding of the tracing-subscriber-init crate.

The embedding follows the Rust sources:
  * `src/utils.rs` — the `get_effective_level` verbosity resolver, with its
    two `cfg(debug_assertions)` variants;
  * `src/config.rs` — the configuration trait with defaulted methods;
  * `src/format/{full,compact,pretty,json}.rs` — the four layer assemblers
    and their `filtered` variants;
  * `src/initialize.rs` — the inlined duplicate `pretty_filtered` and the
    `try_init` installation wrapper.

Builder chains are embedded as traces of builder calls so that the order
and the set of applied options are observable.
-/

/-- The five severity levels of the `tracing` crate (`tracing::Level`). -/
inductive Level
  | trace
  | debug
  | info
  | warn
  | error
deriving DecidableEq, Repr

/-- `tracing::metadata::LevelFilter`: the five levels plus `OFF`. -/
inductive LevelFilter
  | off
  | ltrace
  | ldebug
  | linfo
  | lwarn
  | lerror
deriving DecidableEq, Repr

/-- `impl From<Level> for LevelFilter`: each level maps to the filter that
enables that level and everything more severe; no level maps to `OFF`. -/
def LevelFilter.fromLevel : Level → LevelFilter
  | Level.trace => LevelFilter.ltrace
  | Level.debug => LevelFilter.ldebug
  | Level.info => LevelFilter.linfo
  | Level.warn => LevelFilter.lwarn
  | Level.error => LevelFilter.lerror

/-- The two `cfg` build modes under which `get_effective_level` is compiled. -/
inductive BuildMode
  | debugAssertions
  | release
deriving DecidableEq, Repr

/-- `get_effective_level` under `cfg(debug_assertions)` (src/utils.rs lines
14-29).  Arguments are `u8` counters, embedded as `Nat`. -/
def get_effective_level_debug (quiet verbosity : Nat) : Level :=
  if verbosity > 0 then
    match verbosity with
    | 1 => Level.debug
    | _ => Level.trace
  else if quiet > 0 then
    match quiet with
    | 1 => Level.warn
    | _ => Level.error
  else
    Level.info

/-- `get_effective_level` under `cfg(not(debug_assertions))` (src/utils.rs
lines 31-40).  The `quiet` argument is unused (`_quiet` in the source). -/
def get_effective_level_release (_quiet verbosity : Nat) : Level :=
  match verbosity with
  | 0 => Level.error
  | 1 => Level.warn
  | 2 => Level.info
  | 3 => Level.debug
  | _ => Level.trace

/-- The active resolver: exactly one of the two `cfg` variants is compiled
in, selected by the build mode. -/
def get_effective_level : BuildMode → Nat → Nat → Level
  | BuildMode.debugAssertions, q, v => get_effective_level_debug q v
  | BuildMode.release, q, v => get_effective_level_release q v

/-- The fixed severity ladder of the release-mode resolver, from least to
most verbose, indexed by the clamped verbosity counter. -/
def release_ladder : List Level :=
  [Level.error, Level.warn, Level.info, Level.debug, Level.trace]

/-- Claim C1: in debug-build mode, `get_effective_level` maps `(quiet,
verbose)` as documented: `verbose >= 2` gives trace; `verbose == 1` gives
debug; `verbose == 0, quiet == 1` gives warn; `verbose == 0, quiet >= 2`
gives error; `verbose == 0, quiet == 0` gives info. -/
theorem get_effective_level_debug_policy (q v : Nat) :
    (2 ≤ v → get_effective_level_debug q v = Level.trace) ∧
    (v = 1 → get_effective_level_debug q v = Level.debug) ∧
    (v = 0 → q = 1 → get_effective_level_debug q v = Level.warn) ∧
    (v = 0 → 2 ≤ q → get_effective_level_debug q v = Level.error) ∧
    (v = 0 → q = 0 → get_effective_level_debug q v = Level.info) := by
  refine ⟨?_, ?_, ?_, ?_, ?_⟩
  · intro h
    obtain ⟨n, rfl⟩ : ∃ n, v = n + 2 := ⟨v - 2, by omega⟩
    rfl
  · rintro rfl
    rfl
  · rintro rfl rfl
    rfl
  · rintro rfl h
    obtain ⟨n, rfl⟩ : ∃ n, q = n + 2 := ⟨q - 2, by omega⟩
    rfl
  · rintro rfl rfl
    rfl

/-- Witness for C1 at the concrete input `(quiet, verbose) = (0, 5)`. -/
theorem get_effective_level_debug_policy_witness :
    2 ≤ 5 ∧ get_effective_level_debug 0 5 = Level.trace :=
  ⟨by decide, (get_effective_level_debug_policy 0 5).1 (by decide)⟩

/-- Claim C2: in release-build mode, `get_effective_level` ignores the
`quiet` argument entirely and returns the element of the ladder
`[error, warn, info, debug, trace]` at index `min verbose 4`. -/
theorem get_effective_level_release_policy (q v : Nat) :
    get_effective_level_release q v = release_ladder.getD (min v 4) Level.error ∧
    ∀ q2 : Nat, get_effective_level_release q v = get_effective_level_release q2 v := by
  constructor
  · rcases v with _ | _ | _ | _ | n
    · rfl
    · rfl
    · rfl
    · rfl
    · have h : min (n + 4) 4 = 4 := by omega
      rw [h]
      rfl
  · intro q2
    rfl

/-- Counterexample for C3 as stated: the claim asserts that in release mode
`(quiet, verbose) = (1, 0)` gives warn and `(2, 0)` gives info, but the
release resolver ignores `quiet` and returns error for both. -/
theorem release_boundary_counterexample :
    ¬ (get_effective_level_release 1 0 = Level.warn ∧
       get_effective_level_release 2 0 = Level.info) := by
  decide

/-- Claim C3 (amended): for all pairs in `[0,5] × [0,5]` both resolvers
agree with their documented tables, and the boundary pairs satisfy:
`(0,0)` gives info in debug mode and error in release mode; `(0,1)` gives
debug and warn; `(1,0)` gives warn in debug mode and error in release mode
(release ignores quiet); `(0,4)` gives trace in both; `(2,0)` gives error
in debug mode and error in release mode. -/
theorem level_table_amended :
    (∀ q v : Nat, q ≤ 5 → v ≤ 5 →
      get_effective_level_debug q v =
        (if 2 ≤ v then Level.trace
         else if v = 1 then Level.debug
         else if q = 1 then Level.warn
         else if 2 ≤ q then Level.error
         else Level.info) ∧
      get_effective_level_release q v = release_ladder.getD (min v 4) Level.error) ∧
    get_effective_level_debug 0 0 = Level.info ∧
    get_effective_level_release 0 0 = Level.error ∧
    get_effective_level_debug 0 1 = Level.debug ∧
    get_effective_level_release 0 1 = Level.warn ∧
    get_effective_level_debug 1 0 = Level.warn ∧
    get_effective_level_release 1 0 = Level.error ∧
    get_effective_level_debug 0 4 = Level.trace ∧
    get_effective_level_release 0 4 = Level.trace ∧
    get_effective_level_debug 2 0 = Level.error ∧
    get_effective_level_release 2 0 = Level.error := by
  refine ⟨?_, by decide, by decide, by decide, by decide, by decide, by decide,
    by decide, by decide, by decide, by decide⟩
  intro q v hq hv
  interval_cases q <;> interval_cases v <;> exact ⟨by decide, by decide⟩

/-- Witness for C3 (amended) at the concrete input `(quiet, verbose) = (2, 0)`. -/
theorem level_table_amended_witness :
    get_effective_level_debug 2 0 =
      (if 2 ≤ (0 : Nat) then Level.trace
       else if (0 : Nat) = 1 then Level.debug
       else if (2 : Nat) = 1 then Level.warn
       else if 2 ≤ (2 : Nat) then Level.error
       else Level.info) ∧
    get_effective_level_release 2 0 = release_ladder.getD (min 0 4) Level.error :=
  level_table_amended.1 2 0 (by decide) (by decide)

/-- Claim C4: `get_effective_level` is total on the whole `u8 × u8` domain,
and counters above the explicit range clamp: large verbose gives trace in
both modes, and large quiet with verbose 0 gives error; both counters maxed
out simultaneously give trace. -/
theorem get_effective_level_total_clamped (q v : Nat) (hq : q < 256) (hv : v < 256) :
    (2 ≤ v → get_effective_level_debug q v = Level.trace) ∧
    (4 ≤ v → get_effective_level_release q v = Level.trace) ∧
    (v = 0 → 2 ≤ q → get_effective_level_debug q v = Level.error) ∧
    (v = 0 → get_effective_level_release q v = Level.error) ∧
    get_effective_level_debug 255 255 = Level.trace ∧
    get_effective_level_release 255 255 = Level.trace := by
  refine ⟨?_, ?_, ?_, ?_, by decide, by decide⟩
  · intro h
    obtain ⟨n, rfl⟩ : ∃ n, v = n + 2 := ⟨v - 2, by omega⟩
    rfl
  · intro h
    obtain ⟨n, rfl⟩ : ∃ n, v = n + 4 := ⟨v - 4, by omega⟩
    rfl
  · rintro rfl h
    obtain ⟨n, rfl⟩ : ∃ n, q = n + 2 := ⟨q - 2, by omega⟩
    rfl
  · rintro rfl
    rfl

/-- Witness for C4 at the concrete input `(quiet, verbose) = (255, 255)`. -/
theorem get_effective_level_total_clamped_witness :
    255 < 256 ∧ get_effective_level_debug 255 255 = Level.trace :=
  ⟨by decide,
    ((get_effective_level_total_clamped 255 255 (by decide) (by decide)).1 (by decide))⟩

/-- Claim C10: in both build modes and for every input pair, the resolver
returns one of the five concrete levels, and the derived `LevelFilter` is
never `OFF`, so the filter never suppresses all records. -/
theorem get_effective_level_never_off (q v : Nat) :
    ∀ m : BuildMode,
      get_effective_level m q v ∈
        [Level.trace, Level.debug, Level.info, Level.warn, Level.error] ∧
      LevelFilter.fromLevel (get_effective_level m q v) ≠ LevelFilter.off := by
  have hlevel : ∀ l : Level,
      l ∈ [Level.trace, Level.debug, Level.info, Level.warn, Level.error] ∧
      LevelFilter.fromLevel l ≠ LevelFilter.off := by
    intro l
    cases l <;> exact ⟨by decide, by decide⟩
  intro m
  exact hlevel (get_effective_level m q v)

/-- `tracing_subscriber::fmt::format::FmtSpan`: a set of span lifecycle
points, embedded as four flags (`NEW`, `ENTER`, `EXIT`, `CLOSE`). -/
structure FmtSpan where
  onNew : Bool
  onEnter : Bool
  onExit : Bool
  onClose : Bool
deriving DecidableEq, Repr

/-- `FmtSpan::FULL`: all lifecycle points. -/
def FmtSpan.FULL : FmtSpan :=
  ⟨true, true, true, true⟩

/-- `FmtSpan::NONE`: no lifecycle points. -/
def FmtSpan.NONE : FmtSpan :=
  ⟨false, false, false, false⟩

/-- The `TracingConfig` trait (src/config.rs lines 13-73): the two required
counter accessors plus the defaulted option methods.  A concrete
configuration is a record; a method the implementor leaves unimplemented
keeps the structure-level default, which carries the trait's default body. -/
structure Config where
  quiet : Nat
  verbose : Nat
  with_ansi : Bool := true
  with_current_span : Bool := false
  with_file : Bool := false
  with_line_number : Bool := false
  with_level : Bool := true
  with_span_events : Option FmtSpan := none
  with_span_list : Bool := false
  with_target : Bool := false
  with_thread_ids : Bool := false
  with_thread_names : Bool := false
deriving DecidableEq, Repr

/-- A configuration implementing only the two required methods, leaving
every defaulted option method unimplemented (as `TestConfig` in
src/config.rs does with `quiet = 0`, `verbose = 1`). -/
def config_from_counts (quiet verbose : Nat) : Config :=
  { quiet := quiet, verbose := verbose }

/-- The `TestConfig` implementation from src/config.rs (test module). -/
def test_config : Config :=
  config_from_counts 0 1

/-- The `TestJson` implementation from src/config.rs (test module):
`TestConfig` plus the two JSON-only options overridden to true. -/
def test_json : Config :=
  { quiet := 0, verbose := 1, with_current_span := true, with_span_list := true }

/-- The `TestAll` implementation from src/config.rs lines 79-121: every
option method overridden except `with_ansi` and `with_level`. -/
def test_all : Config :=
  { quiet := 0
    verbose := 3
    with_current_span := true
    with_file := true
    with_line_number := true
    with_span_events := some FmtSpan.FULL
    with_span_list := true
    with_target := true
    with_thread_ids := true
    with_thread_names := true }

/-- One chained call on the `tracing_subscriber::fmt` layer builder. -/
inductive BuilderCall
  | compact
  | pretty
  | json
  | with_ansi (b : Bool)
  | with_file (b : Bool)
  | with_level (b : Bool)
  | with_target (b : Bool)
  | with_thread_ids (b : Bool)
  | with_thread_names (b : Bool)
  | with_line_number (b : Bool)
  | with_current_span (b : Bool)
  | with_span_list (b : Bool)
  | with_span_events (f : FmtSpan)
deriving DecidableEq, Repr

/-- The formatting layer builder, embedded as the ordered trace of the
builder calls applied to it. -/
structure FmtLayer where
  calls : List BuilderCall
deriving DecidableEq, Repr

/-- `fmt::layer()`: the fresh builder (full human-readable base shape). -/
def fmt_layer : FmtLayer :=
  ⟨[]⟩

/-- Builder method `.compact()`. -/
def FmtLayer.compact (l : FmtLayer) : FmtLayer :=
  ⟨l.calls ++ [BuilderCall.compact]⟩

/-- Builder method `.pretty()`. -/
def FmtLayer.pretty (l : FmtLayer) : FmtLayer :=
  ⟨l.calls ++ [BuilderCall.pretty]⟩

/-- Builder method `.json()`. -/
def FmtLayer.json (l : FmtLayer) : FmtLayer :=
  ⟨l.calls ++ [BuilderCall.json]⟩

/-- Builder method `.with_ansi(b)`. -/
def FmtLayer.with_ansi (l : FmtLayer) (b : Bool) : FmtLayer :=
  ⟨l.calls ++ [BuilderCall.with_ansi b]⟩

/-- Builder method `.with_file(b)`. -/
def FmtLayer.with_file (l : FmtLayer) (b : Bool) : FmtLayer :=
  ⟨l.calls ++ [BuilderCall.with_file b]⟩

/-- Builder method `.with_level(b)`. -/
def FmtLayer.with_level (l : FmtLayer) (b : Bool) : FmtLayer :=
  ⟨l.calls ++ [BuilderCall.with_level b]⟩

/-- Builder method `.with_target(b)`. -/
def FmtLayer.with_target (l : FmtLayer) (b : Bool) : FmtLayer :=
  ⟨l.calls ++ [BuilderCall.with_target b]⟩

/-- Builder method `.with_thread_ids(b)`. -/
def FmtLayer.with_thread_ids (l : FmtLayer) (b : Bool) : FmtLayer :=
  ⟨l.calls ++ [BuilderCall.with_thread_ids b]⟩

/-- Builder method `.with_thread_names(b)`. -/
def FmtLayer.with_thread_names (l : FmtLayer) (b : Bool) : FmtLayer :=
  ⟨l.calls ++ [BuilderCall.with_thread_names b]⟩

/-- Builder method `.with_line_number(b)`. -/
def FmtLayer.with_line_number (l : FmtLayer) (b : Bool) : FmtLayer :=
  ⟨l.calls ++ [BuilderCall.with_line_number b]⟩

/-- Builder method `.with_current_span(b)` (JSON builder only). -/
def FmtLayer.with_current_span (l : FmtLayer) (b : Bool) : FmtLayer :=
  ⟨l.calls ++ [BuilderCall.with_current_span b]⟩

/-- Builder method `.with_span_list(b)` (JSON builder only). -/
def FmtLayer.with_span_list (l : FmtLayer) (b : Bool) : FmtLayer :=
  ⟨l.calls ++ [BuilderCall.with_span_list b]⟩

/-- Builder method `.with_span_events(f)`. -/
def FmtLayer.with_span_events (l : FmtLayer) (f : FmtSpan) : FmtLayer :=
  ⟨l.calls ++ [BuilderCall.with_span_events f]⟩

/-- A layer wrapped with a level filter
(`tracing_subscriber::filter::Filtered`). -/
structure Filtered where
  layer : FmtLayer
  filter : LevelFilter
deriving DecidableEq, Repr

/-- Builder method `.with_filter(f)` from the `Layer` trait. -/
def FmtLayer.with_filter (l : FmtLayer) (f : LevelFilter) : Filtered :=
  ⟨l, f⟩

/-- `full` (src/format/full.rs lines 39-61): the full-format assembler. -/
def full (m : BuildMode) (config : Config) : FmtLayer × LevelFilter :=
  let layer :=
    ((((((fmt_layer.with_ansi config.with_ansi).with_file
      config.with_file).with_level config.with_level).with_target
      config.with_target).with_thread_ids config.with_thread_ids).with_thread_names
      config.with_thread_names).with_line_number config.with_line_number
  let layer :=
    match config.with_span_events with
    | some fmt_span => layer.with_span_events fmt_span
    | none => layer
  let level := get_effective_level m config.quiet config.verbose
  let level_filter := LevelFilter.fromLevel level
  (layer, level_filter)

/-- `compact` (src/format/compact.rs lines 39-62): the compact-format
assembler. -/
def compact (m : BuildMode) (config : Config) : FmtLayer × LevelFilter :=
  let layer :=
    (((((((fmt_layer.compact).with_ansi config.with_ansi).with_file
      config.with_file).with_level config.with_level).with_target
      config.with_target).with_thread_ids config.with_thread_ids).with_thread_names
      config.with_thread_names).with_line_number config.with_line_number
  let layer :=
    match config.with_span_events with
    | some fmt_span => layer.with_span_events fmt_span
    | none => layer
  let level := get_effective_level m config.quiet config.verbose
  let level_filter := LevelFilter.fromLevel level
  (layer, level_filter)

/-- `pretty` (src/format/pretty.rs lines 24-47): the pretty-format
assembler. -/
def pretty (m : BuildMode) (config : Config) : FmtLayer × LevelFilter :=
  let layer :=
    (((((((fmt_layer.pretty).with_ansi config.with_ansi).with_file
      config.with_file).with_level config.with_level).with_target
      config.with_target).with_thread_ids config.with_thread_ids).with_thread_names
      config.with_thread_names).with_line_number config.with_line_number
  let layer :=
    match config.with_span_events with
    | some fmt_span => layer.with_span_events fmt_span
    | none => layer
  let level := get_effective_level m config.quiet config.verbose
  let level_filter := LevelFilter.fromLevel level
  (layer, level_filter)

/-- `json` (src/format/json.rs lines 25-51): the JSON-format assembler,
the only one reading the two JSON-only options. -/
def json (m : BuildMode) (config : Config) : FmtLayer × LevelFilter :=
  let layer :=
    (((((((((fmt_layer.json).with_ansi config.with_ansi).with_file
      config.with_file).with_level config.with_level).with_target
      config.with_target).with_thread_ids config.with_thread_ids).with_thread_names
      config.with_thread_names).with_line_number
      config.with_line_number).with_current_span
      config.with_current_span).with_span_list config.with_span_list
  let layer :=
    match config.with_span_events with
    | some fmt_span => layer.with_span_events fmt_span
    | none => layer
  let level := get_effective_level m config.quiet config.verbose
  let level_filter := LevelFilter.fromLevel level
  (layer, level_filter)

/-- `full::filtered` (src/format/full.rs lines 80-90). -/
def full_filtered (m : BuildMode) (config : Config) : Filtered :=
  let p := full m config
  p.1.with_filter p.2

/-- `compact::filtered` (src/format/compact.rs lines 81-91). -/
def compact_filtered (m : BuildMode) (config : Config) : Filtered :=
  let p := compact m config
  p.1.with_filter p.2

/-- `pretty::filtered` (src/format/pretty.rs lines 52-60). -/
def pretty_filtered (m : BuildMode) (config : Config) : Filtered :=
  let p := pretty m config
  p.1.with_filter p.2

/-- `json::filtered` (src/format/json.rs lines 57-67). -/
def json_filtered (m : BuildMode) (config : Config) : Filtered :=
  let p := json m config
  p.1.with_filter p.2

/-- The inlined duplicate `pretty_filtered` from src/initialize.rs lines
182-207, which repeats the whole pretty builder chain instead of calling
the exported `pretty` assembler. -/
def pretty_filtered_inline (m : BuildMode) (config : Config) : Filtered :=
  let layer :=
    (((((((fmt_layer.pretty).with_ansi config.with_ansi).with_file
      config.with_file).with_level config.with_level).with_target
      config.with_target).with_thread_ids config.with_thread_ids).with_thread_names
      config.with_thread_names).with_line_number config.with_line_number
  let layer :=
    match config.with_span_events with
    | some fmt_span => layer.with_span_events fmt_span
    | none => layer
  let level := get_effective_level m config.quiet config.verbose
  let level_filter := LevelFilter.fromLevel level
  layer.with_filter level_filter

/-- The seven option calls shared by all four assemblers, in the order the
source applies them. -/
def shared_calls (c : Config) : List BuilderCall :=
  [BuilderCall.with_ansi c.with_ansi,
   BuilderCall.with_file c.with_file,
   BuilderCall.with_level c.with_level,
   BuilderCall.with_target c.with_target,
   BuilderCall.with_thread_ids c.with_thread_ids,
   BuilderCall.with_thread_names c.with_thread_names,
   BuilderCall.with_line_number c.with_line_number]

/-- Claim C5: a configuration implementing only the required counter
accessors takes every documented default: ansi and level on, every other
toggle off, span events unset. -/
theorem config_default_options (q v : Nat) :
    (config_from_counts q v).with_ansi = true ∧
    (config_from_counts q v).with_level = true ∧
    (config_from_counts q v).with_file = false ∧
    (config_from_counts q v).with_line_number = false ∧
    (config_from_counts q v).with_target = false ∧
    (config_from_counts q v).with_thread_ids = false ∧
    (config_from_counts q v).with_thread_names = false ∧
    (config_from_counts q v).with_current_span = false ∧
    (config_from_counts q v).with_span_list = false ∧
    (config_from_counts q v).with_span_events = none :=
  ⟨rfl, rfl, rfl, rfl, rfl, rfl, rfl, rfl, rfl, rfl⟩

/-- Claim C6: every assembler applies the configuration in the fixed order
base shape, ansi, file, level, target, thread ids, thread names, line
number, then (JSON only) current span and span list, and applies the span
event policy exactly when it is set, leaving the trace untouched when it
is `none`. -/
theorem assembler_call_order (m : BuildMode) (c : Config) :
    (c.with_span_events = none →
      (full m c).1.calls = shared_calls c ∧
      (compact m c).1.calls = BuilderCall.compact :: shared_calls c ∧
      (pretty m c).1.calls = BuilderCall.pretty :: shared_calls c ∧
      (json m c).1.calls = BuilderCall.json ::
        (shared_calls c ++
          [BuilderCall.with_current_span c.with_current_span,
           BuilderCall.with_span_list c.with_span_list])) ∧
    (∀ f : FmtSpan, c.with_span_events = some f →
      (full m c).1.calls = shared_calls c ++ [BuilderCall.with_span_events f] ∧
      (compact m c).1.calls = BuilderCall.compact ::
        (shared_calls c ++ [BuilderCall.with_span_events f]) ∧
      (pretty m c).1.calls = BuilderCall.pretty ::
        (shared_calls c ++ [BuilderCall.with_span_events f]) ∧
      (json m c).1.calls = BuilderCall.json ::
        (shared_calls c ++
          [BuilderCall.with_current_span c.with_current_span,
           BuilderCall.with_span_list c.with_span_list,
           BuilderCall.with_span_events f])) := by
  constructor
  · intro h
    refine ⟨?_, ?_, ?_, ?_⟩ <;>
      simp [full, compact, pretty, json, fmt_layer, shared_calls, h,
        FmtLayer.compact, FmtLayer.pretty, FmtLayer.json, FmtLayer.with_ansi,
        FmtLayer.with_file, FmtLayer.with_level, FmtLayer.with_target,
        FmtLayer.with_thread_ids, FmtLayer.with_thread_names,
        FmtLayer.with_line_number, FmtLayer.with_current_span,
        FmtLayer.with_span_list, FmtLayer.with_span_events]
  · intro f hf
    refine ⟨?_, ?_, ?_, ?_⟩ <;>
      simp [full, compact, pretty, json, fmt_layer, shared_calls, hf,
        FmtLayer.compact, FmtLayer.pretty, FmtLayer.json, FmtLayer.with_ansi,
        FmtLayer.with_file, FmtLayer.with_level, FmtLayer.with_target,
        FmtLayer.with_thread_ids, FmtLayer.with_thread_names,
        FmtLayer.with_line_number, FmtLayer.with_current_span,
        FmtLayer.with_span_list, FmtLayer.with_span_events]

/-- Witness for C6 at the concrete configuration `TestAll`, whose span
event policy is `some FmtSpan.FULL`. -/
theorem assembler_call_order_witness :
    (full BuildMode.debugAssertions test_all).1.calls =
      shared_calls test_all ++ [BuilderCall.with_span_events FmtSpan.FULL] ∧
    (compact BuildMode.debugAssertions test_all).1.calls =
      BuilderCall.compact ::
        (shared_calls test_all ++ [BuilderCall.with_span_events FmtSpan.FULL]) ∧
    (pretty BuildMode.debugAssertions test_all).1.calls =
      BuilderCall.pretty ::
        (shared_calls test_all ++ [BuilderCall.with_span_events FmtSpan.FULL]) ∧
    (json BuildMode.debugAssertions test_all).1.calls =
      BuilderCall.json ::
        (shared_calls test_all ++
          [BuilderCall.with_current_span test_all.with_current_span,
           BuilderCall.with_span_list test_all.with_span_list,
           BuilderCall.with_span_events FmtSpan.FULL]) :=
  (assembler_call_order BuildMode.debugAssertions test_all).2 FmtSpan.FULL rfl

/-- Claim C7: two configurations that differ only in the JSON-only options
(`with_current_span`, `with_span_list`) give identical results under the
non-JSON assemblers `full`, `compact` and `pretty`. -/
theorem json_only_options_no_effect (m : BuildMode) (c1 c2 : Config)
    (hq : c1.quiet = c2.quiet) (hv : c1.verbose = c2.verbose)
    (ha : c1.with_ansi = c2.with_ansi) (hf : c1.with_file = c2.with_file)
    (hln : c1.with_line_number = c2.with_line_number)
    (hl : c1.with_level = c2.with_level)
    (hse : c1.with_span_events = c2.with_span_events)
    (ht : c1.with_target = c2.with_target)
    (hti : c1.with_thread_ids = c2.with_thread_ids)
    (htn : c1.with_thread_names = c2.with_thread_names) :
    full m c1 = full m c2 ∧ compact m c1 = compact m c2 ∧
      pretty m c1 = pretty m c2 := by
  refine ⟨?_, ?_, ?_⟩ <;>
    simp [full, compact, pretty, hq, hv, ha, hf, hln, hl, hse, ht, hti, htn]

/-- Witness for C7 at the concrete configurations `TestConfig` and
`TestJson`, which differ exactly in the two JSON-only options. -/
theorem json_only_options_no_effect_witness :
    full BuildMode.debugAssertions test_config =
      full BuildMode.debugAssertions test_json ∧
    compact BuildMode.debugAssertions test_config =
      compact BuildMode.debugAssertions test_json ∧
    pretty BuildMode.debugAssertions test_config =
      pretty BuildMode.debugAssertions test_json :=
  json_only_options_no_effect BuildMode.debugAssertions test_config test_json
    rfl rfl rfl rfl rfl rfl rfl rfl rfl rfl

/-- Claim C8: every `_filtered` assembler equals the composition of the
pair-returning assembler with `with_filter`, and the inlined duplicate
`pretty_filtered` of src/initialize.rs is extensionally equal to the same
composition through the exported `pretty`. -/
theorem filtered_is_with_filter_composition (m : BuildMode) (c : Config) :
    full_filtered m c = (full m c).1.with_filter (full m c).2 ∧
    compact_filtered m c = (compact m c).1.with_filter (compact m c).2 ∧
    pretty_filtered m c = (pretty m c).1.with_filter (pretty m c).2 ∧
    json_filtered m c = (json m c).1.with_filter (json m c).2 ∧
    pretty_filtered_inline m c = (pretty m c).1.with_filter (pretty m c).2 := by
  refine ⟨rfl, rfl, rfl, rfl, ?_⟩
  cases h : c.with_span_events <;>
    simp [pretty_filtered_inline, pretty, FmtLayer.with_filter, h]

/-- The single error kind surfaced by this library: the external
framework's set-global-default rejection
(`default subscriber already set`). -/
inductive TracingError
  | subscriber_already_set
deriving DecidableEq, Repr

/-- A subscriber built by `registry().with(layers)`: a registry carrying
the boxed layers passed to the installation wrappers. -/
structure Subscriber where
  layers : List Filtered
deriving DecidableEq, Repr

/-- Modelled from the spec: the process-wide default-subscriber slot is
owned by the external tracing framework and is absent from src/; only the
`try_init` wrapper (src/initialize.rs lines 62-64) and its test
(tests/try_init.rs) appear in the repository.  Per the spec, the fallible
installation path fills the slot when it is empty and otherwise fails
observably with the one recoverable error kind, without overwriting the
active default.  The result pairs the fallible outcome with the slot
after the call. -/
def try_init (slot : Option Subscriber) (s : Subscriber) :
    Except TracingError Unit × Option Subscriber :=
  match slot with
  | some existing => (Except.error TracingError.subscriber_already_set, some existing)
  | none => (Except.ok (), some s)

/-- Claim C9: when a default subscriber is already active, `try_init`
returns the recoverable already-set error and leaves the active default in
place; the already-set condition is the only error kind of this library,
and every call either succeeds or surfaces exactly that error. -/
theorem try_init_already_set (slot : Option Subscriber) (s sub : Subscriber)
    (h : slot = some sub) :
    (try_init slot s).1 = Except.error TracingError.subscriber_already_set ∧
    (try_init slot s).2 = slot ∧
    (∀ e : TracingError, e = TracingError.subscriber_already_set) ∧
    (∀ (slot2 : Option Subscriber) (s2 : Subscriber),
      (try_init slot2 s2).1 = Except.ok () ∨
      (try_init slot2 s2).1 = Except.error TracingError.subscriber_already_set) := by
  subst h
  refine ⟨rfl, rfl, ?_, ?_⟩
  · intro e
    cases e
    rfl
  · intro slot2 s2
    cases slot2
    · exact Or.inl rfl
    · exact Or.inr rfl

/-- Witness for C9: install once into the empty slot, then the second
fallible installation fails with the already-set error. -/
theorem try_init_already_set_witness :
    (try_init (try_init none (Subscriber.mk [])).2 (Subscriber.mk [])).1 =
      Except.error TracingError.subscriber_already_set :=
  (try_init_already_set (try_init none (Subscriber.mk [])).2 (Subscriber.mk [])
    (Subscriber.mk []) rfl).1
